import Mathlib

/-!
Verification of the procedural asset synthesizer of the
ai-game-asset-generator repository (src/mvp/gamedev_ai_mvp.py) and of the
backend selection policy (src/mvp/ai_integration.py), as a shallow
embedding in Lean 4.

Modelling conventions:
- Python lists become Lean lists; fallible indexing becomes Option.
- The process-global random source (random.choice) is modelled by an
  oracle function rng : Nat → Nat; the k-th call to random.choice(seq)
  returns seq[rng k % seq.length].
- Python float arithmetic on the small style factors and gradient ratios
  is modelled by exact rational arithmetic, with each rational kept as an
  explicit numerator/denominator pair of integers; Python int() truncation
  toward zero on such a rational is Int.tdiv of numerator by denominator.
- Each PIL draw call is recorded as a DrawOp; a rasterizer models the PIL
  fill semantics (rectangle and ellipse bounding boxes are inclusive of
  both corner points; a fill colour given as an RGB triple on an RGBA
  canvas is stored with alpha 255).
-/

namespace GameDevAI

/-- A colour as passed to a PIL drawing call: an RGB triple.  Channels are
integers because the texture routine multiplies channels by a contrast
factor with no clamping. -/
structure RGB where
  r : Int
  g : Int
  b : Int
deriving DecidableEq

/-- A pixel colour with alpha channel, as reported by Image.getcolors on an
RGBA image. -/
structure RGBA where
  r : Nat
  g : Nat
  b : Nat
  a : Nat
deriving DecidableEq

/-- One recorded PIL drawing call. -/
inductive DrawOp where
  | rect (x0 y0 x1 y1 : Int) (fill : RGB)
  | ellipse (x0 y0 x1 y1 : Int) (fill : RGB) (outline : Option RGB)
  | line (x0 y0 x1 y1 : Int) (fill : RGB)
deriving DecidableEq

/-- An exact rational multiplier, kept as a numerator/denominator pair:
the Python decimal literal n.d is modelled as (10n+d)/10. -/
structure Frac where
  num : Int
  den : Int
deriving DecidableEq

/-- A style preset: the saturation and contrast multipliers.  The Python
floats 1.0, 1.2, ... are modelled by the exact rationals they denote. -/
structure StyleConfig where
  saturation : Frac
  contrast : Frac
deriving DecidableEq

/-- The style_presets table of AIAssetGenerator.__init__. -/
def stylePresets : List (String × StyleConfig) :=
  [("realistic", ⟨⟨10, 10⟩, ⟨12, 10⟩⟩),
   ("cartoon", ⟨⟨15, 10⟩, ⟨8, 10⟩⟩),
   ("pixel", ⟨⟨13, 10⟩, ⟨10, 10⟩⟩),
   ("minimalist", ⟨⟨7, 10⟩, ⟨11, 10⟩⟩)]

/-- style_presets.get(style, style_presets["realistic"]). -/
def stylePreset (style : String) : StyleConfig :=
  match stylePresets.find? (fun p => p.1 == style) with
  | some p => p.2
  | none => ⟨⟨10, 10⟩, ⟨12, 10⟩⟩

/-- needle is a prefix of haystack (on character lists). -/
def startsWithL : List Char → List Char → Bool
  | [], _ => true
  | _ :: _, [] => false
  | c :: cs, d :: ds => c == d && startsWithL cs ds

/-- Python substring membership: needle in haystack. -/
def containsSub (needle : List Char) : List Char → Bool
  | [] => startsWithL needle []
  | d :: ds => startsWithL needle (d :: ds) || containsSub needle ds

/-- haystack contains needle as a substring. -/
def strContains (haystack needle : String) : Bool :=
  containsSub needle.data haystack.data

/-- Python str.lower(), restricted to the ASCII range used by the keyword
tables: lowercase every character. -/
def strLower (s : String) : String :=
  String.mk (s.data.map Char.toLower)

/-- The color_keywords table of _analyze_prompt_colors, in Python dict
insertion order. -/
def colorKeywords : List (String × RGB) :=
  [("red", ⟨255, 0, 0⟩), ("blue", ⟨0, 0, 255⟩), ("green", ⟨0, 255, 0⟩),
   ("yellow", ⟨255, 255, 0⟩), ("purple", ⟨128, 0, 128⟩),
   ("orange", ⟨255, 165, 0⟩), ("brown", ⟨139, 69, 19⟩),
   ("black", ⟨0, 0, 0⟩), ("white", ⟨255, 255, 255⟩),
   ("gray", ⟨128, 128, 128⟩), ("pink", ⟨255, 192, 203⟩)]

/-- The default palette substituted when no keyword matches. -/
def defaultPalette : List RGB :=
  [⟨100, 150, 200⟩, ⟨200, 100, 150⟩, ⟨150, 200, 100⟩]

/-- AIAssetGenerator._analyze_prompt_colors. -/
def analyzePromptColors (prompt : String) : List RGB :=
  let promptLower := strLower prompt
  let found := (colorKeywords.filter
    (fun kv => strContains promptLower kv.1)).map (fun kv => kv.2)
  if found.isEmpty then defaultPalette else found

/-- The shape_keywords table of _analyze_prompt_shapes. -/
def shapeKeywords : List String :=
  ["circle", "square", "triangle", "rectangle", "star", "diamond", "hexagon"]

/-- AIAssetGenerator._analyze_prompt_shapes. -/
def analyzePromptShapes (prompt : String) : List String :=
  let found := shapeKeywords.filter
    (fun s => strContains (strLower prompt) s)
  if found.isEmpty then ["rectangle"] else found

/-- random.choice(l) at call counter k of the random oracle: l[rng k % len(l)].
None models the IndexError raised on an empty sequence. -/
def randChoice (rng : Nat → Nat) (k : Nat) (l : List RGB) : Option RGB :=
  l.get? (rng k % l.length)

/-- Map a fallible function over a list, failing on the first failure,
modelling a Python loop whose body may raise. -/
def mapOpt (f : α → Option β) : List α → Option (List β)
  | [] => some []
  | a :: l => do
      let b ← f a
      let bs ← mapOpt f l
      pure (b :: bs)

/-- int(c * contrast) applied to each channel of a colour (the texture
routine applies no clamping): c * (num/den) truncated toward zero is
Int.tdiv (c * num) den. -/
def applyContrast (q : Frac) (c : RGB) : RGB :=
  ⟨Int.tdiv (c.r * q.num) q.den,
   Int.tdiv (c.g * q.num) q.den,
   Int.tdiv (c.b * q.num) q.den⟩

/-- range(0, n, 20): the grid step offsets in one axis. -/
def gridSteps (n : Nat) : List Nat :=
  (List.range ((n + 19) / 20)).map (fun k => k * 20)

/-- The cell offsets of the texture routine, in the nesting order of its
loops: outer loop over the width offsets, inner loop over the height
offsets. -/
def textureCells (w h : Nat) : List (Nat × Nat) :=
  List.product (gridSteps w) (gridSteps h)

/-- AIAssetGenerator._generate_texture: one rectangle per 20-pixel grid
cell, each corner pair (i, j)-(i+15, j+15), filled with a random palette
colour with the contrast factor applied per channel. -/
def generateTexture (w h : Nat) (colors : List RGB) (cfg : StyleConfig)
    (rng : Nat → Nat) : Option (List DrawOp) :=
  mapOpt
    (fun ke =>
      (randChoice rng ke.1 colors).map
        (fun c => DrawOp.rect ke.2.1 ke.2.2 (ke.2.1 + 15) (ke.2.2 + 15)
          (applyContrast cfg.contrast c)))
    (textureCells w h).enum

/-- The loop body of _generate_sprite over the (at most 3) processed
shapes: a random colour is drawn for every processed shape; an ellipse is
emitted for "circle", a rectangle for "rectangle", nothing otherwise; the
half-extent shrinks by 10 after every processed shape. -/
def spriteOps (cx cy : Int) (colors : List RGB) (rng : Nat → Nat) :
    Nat → Int → List String → Option (List DrawOp)
  | _, _, [] => some []
  | k, size, shape :: rest => do
      let c ← randChoice rng k colors
      let ops ← spriteOps cx cy colors rng (k + 1) (size - 10) rest
      if shape = "circle" then
        pure (DrawOp.ellipse (cx - size) (cy - size) (cx + size) (cy + size)
          c none :: ops)
      else if shape = "rectangle" then
        pure (DrawOp.rect (cx - size) (cy - size) (cx + size) (cy + size)
          c :: ops)
      else
        pure ops

/-- AIAssetGenerator._generate_sprite. -/
def generateSprite (w h : Nat) (colors : List RGB) (shapes : List String)
    (rng : Nat → Nat) : Option (List DrawOp) :=
  spriteOps ((w / 2 : Nat) : Int) ((h / 2 : Nat) : Int) colors rng
    0 ((min w h / 3 : Nat) : Int) (shapes.take 3)

/-- AIAssetGenerator._generate_icon: a filled circle (outline in the second
palette colour when present, else the first), then an inner filled square
(second palette colour when present, else opaque white). -/
def generateIcon (w h : Nat) (colors : List RGB) : Option (List DrawOp) := do
  let c0 ← colors.get? 0
  let outline ← if colors.length > 1 then colors.get? 1 else pure c0
  let innerFill ← if colors.length > 1 then colors.get? 1
                  else pure (⟨255, 255, 255⟩ : RGB)
  let cx : Int := ((w / 2 : Nat) : Int)
  let cy : Int := ((h / 2 : Nat) : Int)
  let size : Int := ((min w h / 3 : Nat) : Int)
  let innerSize : Int := ((min w h / 3 / 2 : Nat) : Int)
  pure [DrawOp.ellipse (cx - size) (cy - size) (cx + size) (cy + size)
          c0 (some outline),
        DrawOp.rect (cx - innerSize) (cy - innerSize) (cx + innerSize)
          (cy + innerSize) innerFill]

/-- One channel of the gradient of _generate_background at row y:
int(c1 * (1 - y/h) + c2 * (y/h)) in exact rational arithmetic; the blend
equals the rational (c1*(h-y) + c2*y)/h exactly, and Python int() is
truncation toward zero, which is Int.tdiv. -/
def blendChannel (c1 c2 : Int) (y h : Nat) : Int :=
  Int.tdiv (c1 * ((h : Int) - (y : Int)) + c2 * (y : Int)) (h : Int)

/-- The blended row colour of _generate_background. -/
def blendColor (c1 c2 : RGB) (y h : Nat) : RGB :=
  ⟨blendChannel c1.r c2.r y h,
   blendChannel c1.g c2.g y h,
   blendChannel c1.b c2.b y h⟩

/-- AIAssetGenerator._generate_background: one horizontal line per row,
colour linearly interpolated between the first two palette colours (the
first with itself when only one exists). -/
def generateBackground (w h : Nat) (colors : List RGB) :
    Option (List DrawOp) :=
  mapOpt
    (fun (y : Nat) => do
      let c1 ← colors.get? 0
      let c2 ← if colors.length > 1 then colors.get? 1 else colors.get? 0
      pure (DrawOp.line 0 (y : Int) (w : Int) (y : Int) (blendColor c1 c2 y h)))
    (List.range h)

/-- AIAssetGenerator._create_procedural_asset: extract colours and shapes
from the prompt, resolve the style, dispatch on the asset category; an
unrecognized category draws nothing. -/
def createProceduralAsset (prompt category style : String) (w h : Nat)
    (rng : Nat → Nat) : Option (List DrawOp) :=
  if category = "texture" then
    generateTexture w h (analyzePromptColors prompt) (stylePreset style) rng
  else if category = "sprite" then
    generateSprite w h (analyzePromptColors prompt)
      (analyzePromptShapes prompt) rng
  else if category = "icon" then
    generateIcon w h (analyzePromptColors prompt)
  else if category = "background" then
    generateBackground w h (analyzePromptColors prompt)
  else
    some []

/-- A pixel of the RGBA canvas.  Channels are integers: the values stored
are exactly the values handed to PIL (the open question of channel
overflow beyond 255 is left to the caller, as in the source). -/
structure Pixel where
  r : Int
  g : Int
  b : Int
  a : Int
deriving DecidableEq

/-- The canvas created by Image.new("RGBA", (w, h), (255, 255, 255, 0)):
every pixel starts fully transparent. -/
def initPixel : Pixel :=
  ⟨255, 255, 255, 0⟩

/-- A pixel buffer, as a function from coordinates to pixel values. -/
def Canvas : Type :=
  Nat → Nat → Pixel

/-- Pixel membership of a PIL rectangle: both corner points are
inclusive. -/
def coversRect (x0 y0 x1 y1 : Int) (x y : Nat) : Bool :=
  x0 ≤ (x : Int) && (x : Int) ≤ x1 && y0 ≤ (y : Int) && (y : Int) ≤ y1

/-- Pixel membership of a PIL filled ellipse inscribed in the inclusive
bounding box. -/
def coversEllipse (x0 y0 x1 y1 : Int) (x y : Nat) : Bool :=
  let a := x1 - x0
  let b := y1 - y0
  (2 * (x : Int) - (x0 + x1)) ^ 2 * b ^ 2 +
      (2 * (y : Int) - (y0 + y1)) ^ 2 * a ^ 2 ≤ a ^ 2 * b ^ 2

/-- Pixel membership of a PIL line of width 1.  Only the horizontal lines
emitted by the background routine are modelled; no claim below inspects
pixels of any other line orientation. -/
def coversLine (x0 y0 x1 y1 : Int) (x y : Nat) : Bool :=
  y0 == y1 && (y : Int) == y0 && min x0 x1 ≤ (x : Int) && (x : Int) ≤ max x0 x1

/-- A fill colour handed to PIL as an RGB triple is stored with alpha
255. -/
def fillPixel (c : RGB) : Pixel :=
  ⟨c.r, c.g, c.b, 255⟩

/-- Apply one drawing call to the canvas.  The one-pixel outline ring PIL
draws for an ellipse with an outline colour is not modelled; no claim
below inspects outline pixels. -/
def applyOp (img : Canvas) (op : DrawOp) : Canvas :=
  match op with
  | DrawOp.rect x0 y0 x1 y1 c =>
      fun x y => if coversRect x0 y0 x1 y1 x y then fillPixel c else img x y
  | DrawOp.ellipse x0 y0 x1 y1 c _ =>
      fun x y => if coversEllipse x0 y0 x1 y1 x y then fillPixel c else img x y
  | DrawOp.line x0 y0 x1 y1 c =>
      fun x y => if coversLine x0 y0 x1 y1 x y then fillPixel c else img x y

/-- Replay a list of drawing calls on the fresh transparent canvas. -/
def render (ops : List DrawOp) : Canvas :=
  ops.foldl applyOp (fun _ _ => initPixel)

/-- Stable insertion of a colour census entry into a list sorted by
descending count: an entry is placed before the first entry whose count is
not larger. -/
def insertByCount (p : Nat × RGBA) :
    List (Nat × RGBA) → List (Nat × RGBA)
  | [] => [p]
  | q :: rest =>
      if q.1 ≤ p.1 then p :: q :: rest else q :: insertByCount p rest

/-- sorted(colors, key count, reverse=True): a stable sort by descending
count, as performed by Python sorted. -/
def sortByCountDesc : List (Nat × RGBA) → List (Nat × RGBA)
  | [] => []
  | p :: rest => insertByCount p (sortByCountDesc rest)

/-- One lowercase hexadecimal digit. -/
def hexDigit (n : Nat) : Char :=
  if n < 10 then Char.ofNat (48 + n) else Char.ofNat (87 + n)

/-- Python %02x formatting of one channel byte. -/
def hexByte (n : Nat) : String :=
  String.mk [hexDigit (n / 16), hexDigit (n % 16)]

/-- The hex string of one census colour, as built by the f-string of
_extract_color_palette (the alpha channel is dropped). -/
def hexColor (c : RGBA) : String :=
  "#" ++ hexByte c.r ++ hexByte c.g ++ hexByte c.b

/-- AIAssetGenerator._extract_color_palette, as a function of the colour
census Image.getcolors reports: none models the None returned when the
image has more distinct colours than maxcolors; otherwise the list of
(count, colour) pairs.  The top 5 entries by count are selected first and
the alpha > 0 filter is applied to the selection afterwards. -/
def extractColorPalette (census : Option (List (Nat × RGBA))) :
    List String :=
  match census with
  | none => ["#000000"]
  | some [] => ["#000000"]
  | some cs =>
      let top := (sortByCountDesc cs).take 5
      (top.filter (fun p => 0 < p.2.a)).map (fun p => hexColor p.2)

/-- The three generation strategies of RealAIAssetGenerator. -/
inductive Backend where
  | dalle
  | stableDiffusion
  | procedural
deriving DecidableEq

/-- The routing of RealAIAssetGenerator.generate_asset: the requested
backend when its key is configured, else DALL-E when its key is
configured, else Stable Diffusion when its key is configured, else the
procedural fallback. -/
def routeBackend (pref : String) (hasOpenAIKey hasStabilityKey : Bool) :
    Backend :=
  if pref = "dalle" ∧ hasOpenAIKey then Backend.dalle
  else if pref = "stable_diffusion" ∧ hasStabilityKey then
    Backend.stableDiffusion
  else if hasOpenAIKey then Backend.dalle
  else if hasStabilityKey then Backend.stableDiffusion
  else Backend.procedural

/-- Written from the amended sprite claim: the drawing calls of one
processed shape — an ellipse for "circle", a square for "rectangle",
nothing for any other shape name. -/
def specShapeOps (cx cy size : Int) (c : RGB) (shape : String) :
    List DrawOp :=
  if shape = "circle" then
    [DrawOp.ellipse (cx - size) (cy - size) (cx + size) (cy + size) c none]
  else if shape = "rectangle" then
    [DrawOp.rect (cx - size) (cy - size) (cx + size) (cy + size) c]
  else
    []

/-- Written from the amended sprite claim: process the shapes in order; the
k-th processed shape uses the k-th random palette pick and half-extent
shrunk by 10 per predecessor. -/
def specSpriteOps (cx cy : Int) (colors : List RGB) (rng : Nat → Nat) :
    Nat → Int → List String → List DrawOp
  | _, _, [] => []
  | k, size, shape :: rest =>
      specShapeOps cx cy size
          (colors.getD (rng k % colors.length) ⟨0, 0, 0⟩) shape ++
        specSpriteOps cx cy colors rng (k + 1) (size - 10) rest

/-- Written from the amended sprite claim: only the first 3 shapes are
processed, centred on (w/2, h/2), with initial half-extent
min(w, h)/3. -/
def specSprite (w h : Nat) (colors : List RGB) (shapes : List String)
    (rng : Nat → Nat) : List DrawOp :=
  specSpriteOps ((w / 2 : Nat) : Int) ((h / 2 : Nat) : Int) colors rng
    0 ((min w h / 3 : Nat) : Int) (shapes.take 3)

/-- Written from the amended texture claim: one rectangle per cell of the
ceil(w/20) by ceil(h/20) grid, enumerated with the outer loop over the
width offsets, with corner points (i, j) and (i+15, j+15) — an inclusive
box of 16 by 16 pixels — filled with the contrast-adjusted random palette
pick of the cell. -/
def specTextureOps (w h : Nat) (colors : List RGB) (cfg : StyleConfig)
    (rng : Nat → Nat) : List DrawOp :=
  (textureCells w h).enum.map
    (fun ke =>
      DrawOp.rect ke.2.1 ke.2.2 (ke.2.1 + 15) (ke.2.2 + 15)
        (applyContrast cfg.contrast
          (colors.getD (rng ke.1 % colors.length) ⟨0, 0, 0⟩)))

/-- Written from the amended background claim: one line per row, coloured
by the truncated per-channel blend of the first two palette colours. -/
def specBackgroundOps (w h : Nat) (c1 c2 : RGB) : List DrawOp :=
  (List.range h).map
    (fun (y : Nat) =>
      DrawOp.line 0 (y : Int) (w : Int) (y : Int) (blendColor c1 c2 y h))

theorem randChoice_eq_getD (rng : Nat → Nat) (k : Nat) {l : List RGB}
    (h : l ≠ []) :
    randChoice rng k l = some (l.getD (rng k % l.length) ⟨0, 0, 0⟩) := by
  have hlen : 0 < l.length := List.length_pos.mpr h
  have hlt : rng k % l.length < l.length := Nat.mod_lt _ hlen
  cases hx : l.get? (rng k % l.length) with
  | none =>
      exact absurd (List.get?_eq_none.mp hx) (Nat.not_le.mpr hlt)
  | some x =>
      unfold randChoice
      rw [List.getD_eq_getElem?_getD, ← List.get?_eq_getElem?, hx]
      rfl

theorem mapOpt_eq_some_map {α β : Type} {f : α → Option β} {g : α → β} :
    ∀ {l : List α}, (∀ a ∈ l, f a = some (g a)) →
      mapOpt f l = some (l.map g)
  | [], _ => rfl
  | a :: l, H => by
      have h1 : f a = some (g a) := H a (List.mem_cons_self a l)
      have h2 : mapOpt f l = some (l.map g) :=
        mapOpt_eq_some_map (fun x hx => H x (List.mem_cons_of_mem a hx))
      simp [mapOpt, h1, h2]

theorem analyzePromptColors_ne_nil (prompt : String) :
    analyzePromptColors prompt ≠ [] := by
  simp only [analyzePromptColors]
  split
  · intro h
    exact absurd h (by decide)
  · next hne =>
      intro h
      rw [h] at hne
      exact absurd rfl hne

theorem analyzePromptShapes_ne_nil (prompt : String) :
    analyzePromptShapes prompt ≠ [] := by
  simp only [analyzePromptShapes]
  split
  · intro h
    exact absurd h (by decide)
  · next hne =>
      intro h
      rw [h] at hne
      exact absurd rfl hne

theorem spriteOps_eq_specSpriteOps (cx cy : Int) {colors : List RGB}
    (rng : Nat → Nat) (h : colors ≠ []) :
    ∀ (shapes : List String) (k : Nat) (size : Int),
      spriteOps cx cy colors rng k size shapes =
        some (specSpriteOps cx cy colors rng k size shapes) := by
  intro shapes
  induction shapes with
  | nil =>
      intro k size
      rfl
  | cons shape rest ih =>
      intro k size
      simp only [spriteOps, specSpriteOps, randChoice_eq_getD rng k h,
        ih (k + 1) (size - 10), Option.bind_some]
      by_cases hc : shape = "circle"
      · simp [hc, specShapeOps]
      · by_cases hr : shape = "rectangle"
        · simp [hc, hr, specShapeOps]
        · simp [hc, hr, specShapeOps]

theorem generateSprite_eq (w h : Nat) {colors : List RGB}
    (shapes : List String) (rng : Nat → Nat) (hc : colors ≠ []) :
    generateSprite w h colors shapes rng =
      some (specSprite w h colors shapes rng) :=
  spriteOps_eq_specSpriteOps _ _ rng hc (shapes.take 3) 0 _

theorem generateTexture_eq (w h : Nat) {colors : List RGB}
    (cfg : StyleConfig) (rng : Nat → Nat) (hc : colors ≠ []) :
    generateTexture w h colors cfg rng =
      some (specTextureOps w h colors cfg rng) := by
  unfold generateTexture specTextureOps
  apply mapOpt_eq_some_map
  intro ke _
  rw [randChoice_eq_getD rng ke.1 hc]
  rfl

theorem generateBackground_eq (w h : Nat) {colors : List RGB} {c1 : RGB}
    (h1 : colors.get? 0 = some c1) :
    ∃ c2, (if colors.length > 1 then colors.get? 1 else
        colors.get? 0) = some c2 ∧
      generateBackground w h colors = some (specBackgroundOps w h c1 c2) := by
  cases colors with
  | nil => cases h1
  | cons a l =>
      have ha : a = c1 := by simpa using h1
      subst ha
      cases l with
      | nil =>
          refine ⟨a, by simp, ?_⟩
          unfold generateBackground specBackgroundOps
          apply mapOpt_eq_some_map
          intro y _
          rfl
      | cons b l2 =>
          have hlen : (a :: b :: l2).length > 1 := by
            simp only [List.length_cons]
            omega
          refine ⟨b, ?_, ?_⟩
          · rw [if_pos hlen]
            rfl
          · unfold generateBackground specBackgroundOps
            apply mapOpt_eq_some_map
            intro y _
            simp [hlen]

theorem generateIcon_isSome (w h : Nat) {colors : List RGB}
    (hc : colors ≠ []) : (generateIcon w h colors).isSome := by
  cases colors with
  | nil => exact absurd rfl hc
  | cons a l =>
      cases l with
      | nil => rfl
      | cons b l2 =>
          have hlen : (a :: b :: l2).length > 1 := by
            simp only [List.length_cons]
            omega
          simp [generateIcon, if_pos hlen]

theorem exists_get?_zero {l : List RGB} (h : l ≠ []) :
    ∃ c, l.get? 0 = some c := by
  cases l with
  | nil => exact absurd rfl h
  | cons a t => exact ⟨a, rfl⟩

theorem getD_mem {l : List RGB} {n : Nat} (hn : n < l.length) (d : RGB) :
    l.getD n d ∈ l := by
  rw [List.getD_eq_getElem?_getD, List.getElem?_eq_getElem hn]
  exact List.getElem_mem hn

theorem insertByCount_perm (p : Nat × RGBA) :
    ∀ l : List (Nat × RGBA), (insertByCount p l).Perm (p :: l)
  | [] => List.Perm.refl _
  | q :: rest => by
      unfold insertByCount
      split
      · exact List.Perm.refl _
      · exact ((insertByCount_perm p rest).cons q).trans
          (List.Perm.swap p q rest)

theorem insertByCount_sorted (p : Nat × RGBA) :
    ∀ {l : List (Nat × RGBA)},
      l.Pairwise (fun a b => b.1 ≤ a.1) →
      (insertByCount p l).Pairwise (fun a b => b.1 ≤ a.1) := by
  intro l
  induction l with
  | nil =>
      intro _
      simp [insertByCount]
  | cons q rest ih =>
      intro hs
      have hq : ∀ x ∈ rest, x.1 ≤ q.1 := (List.pairwise_cons.mp hs).1
      have hrest : rest.Pairwise (fun a b => b.1 ≤ a.1) :=
        (List.pairwise_cons.mp hs).2
      unfold insertByCount
      split
      · next hle =>
          refine List.pairwise_cons.mpr ⟨?_, hs⟩
          intro x hx
          rcases List.mem_cons.mp hx with hxq | hxr
          · rw [hxq]
            exact hle
          · exact le_trans (hq x hxr) hle
      · next hgt =>
          refine List.pairwise_cons.mpr ⟨?_, ih hrest⟩
          intro x hx
          have hx2 : x ∈ p :: rest :=
            (insertByCount_perm p rest).mem_iff.mp hx
          rcases List.mem_cons.mp hx2 with hxp | hxr
          · rw [hxp]
            exact le_of_lt (lt_of_not_le hgt)
          · exact hq x hxr

theorem sortByCountDesc_perm :
    ∀ l : List (Nat × RGBA), (sortByCountDesc l).Perm l
  | [] => List.Perm.refl _
  | p :: rest =>
      (insertByCount_perm p (sortByCountDesc rest)).trans
        ((sortByCountDesc_perm rest).cons p)

theorem sortByCountDesc_sorted :
    ∀ l : List (Nat × RGBA),
      (sortByCountDesc l).Pairwise (fun a b => b.1 ≤ a.1)
  | [] => List.Pairwise.nil
  | p :: rest => insertByCount_sorted p (sortByCountDesc_sorted rest)

theorem blendChannel_zero (a b : Int) {h : Nat} (hh : 0 < h) :
    blendChannel a b 0 h = a := by
  unfold blendChannel
  have hz : (h : Int) ≠ 0 := by omega
  have e : a * ((h : Int) - ((0 : Nat) : Int)) + b * ((0 : Nat) : Int) =
      a * (h : Int) := by
    push_cast
    ring
  rw [e]
  exact Int.mul_tdiv_cancel a hz

/-- Claim C1, counterexample: on the shape set consisting of the single
vocabulary shape "square", the sprite routine emits no drawing call at
all, while the claim mandates a centred filled square (which at 64 by 64
would be the rectangle with corners (11, 11) and (53, 53)). -/
theorem claim_c1_counterexample :
    generateSprite 64 64 [⟨1, 2, 3⟩] ["square"] (fun _ => 0) = some [] ∧
      some ([] : List DrawOp) ≠ some [DrawOp.rect 11 11 53 53 ⟨1, 2, 3⟩] := by
  exact ⟨by decide, by decide⟩

/-- Claim C1, amended: for every non-empty palette, shape set and
dimensions, the sprite routine processes only the first 3 shapes and, for
each processed shape, picks a random palette colour and draws a centred
filled ellipse when the shape name is "circle", a centred filled square
when it is "rectangle", and nothing for any other name; the half-extent
starts at min(w, h)/3 and shrinks by 10 per processed shape; shapes beyond
the 3rd are ignored. -/
theorem claim_c1_amended (w h : Nat) (colors : List RGB)
    (shapes : List String) (rng : Nat → Nat) (hc : colors ≠ []) :
    generateSprite w h colors shapes rng =
        some (specSprite w h colors shapes rng) ∧
      generateSprite w h colors shapes rng =
        generateSprite w h colors (shapes.take 3) rng := by
  refine ⟨generateSprite_eq w h shapes rng hc, ?_⟩
  simp [generateSprite, List.take_take]

/-- Witness for claim C1 at a concrete input. -/
theorem claim_c1_witness :
    generateSprite 64 64 [⟨9, 9, 9⟩] ["circle"] (fun _ => 0) =
      some (specSprite 64 64 [⟨9, 9, 9⟩] ["circle"] (fun _ => 0)) :=
  (claim_c1_amended 64 64 [⟨9, 9, 9⟩] ["circle"] (fun _ => 0) (by decide)).1

/-- Claim C2, counterexample: a colour census whose only entry is fully
transparent yields the empty list, not the ["#000000"] sentinel; and when
a fully transparent colour is among the 5 most frequent, it occupies a
top-5 slot and is filtered out only afterwards, so a less frequent opaque
colour is dropped (here only 4 strings are returned although 5 opaque
colours exist). -/
theorem claim_c2_counterexample :
    extractColorPalette (some [(5, ⟨7, 7, 7, 0⟩)]) = [] ∧
      extractColorPalette (some [(5, ⟨7, 7, 7, 0⟩)]) ≠ ["#000000"] ∧
      extractColorPalette (some [(10, ⟨0, 0, 0, 0⟩), (9, ⟨1, 0, 0, 255⟩),
          (8, ⟨2, 0, 0, 255⟩), (7, ⟨3, 0, 0, 255⟩), (6, ⟨4, 0, 0, 255⟩),
          (5, ⟨5, 0, 0, 255⟩)]) =
        ["#010000", "#020000", "#030000", "#040000"] := by
  exact ⟨by decide, by decide, by decide⟩

/-- Claim C2, amended: the summarizer returns the hex strings of those
entries among the 5 most frequent census colours (stable descending order
by count) whose alpha is positive — the transparency filter runs after the
top-5 selection, not before — and at most 5 strings; the ["#000000"]
sentinel is produced only when the census is unavailable or empty, not
when no opaque pixel exists. -/
theorem claim_c2_amended :
    extractColorPalette none = ["#000000"] ∧
      extractColorPalette (some []) = ["#000000"] ∧
      ∀ cs : List (Nat × RGBA), cs ≠ [] →
        ∃ sorted : List (Nat × RGBA), sorted.Perm cs ∧
          sorted.Pairwise (fun a b => b.1 ≤ a.1) ∧
          extractColorPalette (some cs) =
            ((sorted.take 5).filter (fun p => 0 < p.2.a)).map
              (fun p => hexColor p.2) ∧
          (extractColorPalette (some cs)).length ≤ 5 := by
  refine ⟨rfl, rfl, ?_⟩
  intro cs hcs
  refine ⟨sortByCountDesc cs, sortByCountDesc_perm cs,
    sortByCountDesc_sorted cs, ?_, ?_⟩
  · cases cs with
    | nil => exact absurd rfl hcs
    | cons a t => rfl
  · cases cs with
    | nil => exact absurd rfl hcs
    | cons a t =>
        show ((((sortByCountDesc (a :: t)).take 5).filter
          (fun p => 0 < p.2.a)).map (fun p => hexColor p.2)).length ≤ 5
        rw [List.length_map]
        refine le_trans (List.length_filter_le _ _) ?_
        rw [List.length_take]
        exact min_le_left _ _

/-- Witness for claim C2 at a concrete census. -/
theorem claim_c2_witness :
    ∃ sorted : List (Nat × RGBA),
      sorted.Perm [(5, (⟨7, 7, 7, 0⟩ : RGBA))] ∧
      sorted.Pairwise (fun a b => b.1 ≤ a.1) ∧
      extractColorPalette (some [(5, ⟨7, 7, 7, 0⟩)]) =
        ((sorted.take 5).filter (fun p => 0 < p.2.a)).map
          (fun p => hexColor p.2) ∧
      (extractColorPalette (some [(5, ⟨7, 7, 7, 0⟩)])).length ≤ 5 :=
  claim_c2_amended.2.2 [(5, ⟨7, 7, 7, 0⟩)] (by decide)

/-- Claim C3, counterexample: the icon routine on the single-entry palette
[(255, 0, 0)] at 64 by 64 gives the circle outline colour (255, 0, 0) but
fills the inner square with opaque white (255, 255, 255), not with
(255, 0, 0) as claimed. -/
theorem claim_c3_counterexample :
    generateIcon 64 64 [⟨255, 0, 0⟩] =
        some [DrawOp.ellipse 11 11 53 53 ⟨255, 0, 0⟩ (some ⟨255, 0, 0⟩),
          DrawOp.rect 22 22 42 42 ⟨255, 255, 255⟩] ∧
      (⟨255, 255, 255⟩ : RGB) ≠ ⟨255, 0, 0⟩ := by
  exact ⟨by decide, by decide⟩

/-- Claim C3, amended: on the palette [(255, 0, 0)] at 64 by 64, the
fallback-to-first-colour branch is taken for the outline (so it equals
(255, 0, 0)), while the inner square takes the white fallback
(255, 255, 255) reserved for single-colour palettes. -/
theorem claim_c3_amended :
    ∃ ops, generateIcon 64 64 [⟨255, 0, 0⟩] = some ops ∧
      ops.get? 0 = some (DrawOp.ellipse 11 11 53 53 ⟨255, 0, 0⟩
        (some ⟨255, 0, 0⟩)) ∧
      ops.get? 1 = some (DrawOp.rect 22 22 42 42 ⟨255, 255, 255⟩) := by
  refine ⟨[DrawOp.ellipse 11 11 53 53 ⟨255, 0, 0⟩ (some ⟨255, 0, 0⟩),
    DrawOp.rect 22 22 42 42 ⟨255, 255, 255⟩], by decide, rfl, rfl⟩

/-- Claim C4, counterexample: the rectangle a texture cell draws has both
corner points inclusive under PIL semantics, so the cell at the origin
paints pixel (15, 15) — a 16 by 16 block with a 4-pixel gutter — while the
claimed 15 by 15 block starting at the cell origin would leave that pixel
fully transparent. -/
theorem claim_c4_counterexample :
    generateTexture 20 20 [⟨0, 0, 0⟩] ⟨⟨13, 10⟩, ⟨10, 10⟩⟩ (fun _ => 0) =
        some [DrawOp.rect 0 0 15 15 ⟨0, 0, 0⟩] ∧
      render [DrawOp.rect 0 0 15 15 ⟨0, 0, 0⟩] 15 15 = ⟨0, 0, 0, 255⟩ ∧
      render [DrawOp.rect 0 0 15 15 ⟨0, 0, 0⟩] 15 15 ≠ initPixel := by
  exact ⟨by decide, by decide, by decide⟩

/-- Claim C4, amended: the texture routine tiles row-major over the
ceil(w/20) by ceil(h/20) grid of 20-pixel cells (outer loop over the width
offsets), drawing per cell the rectangle with inclusive corners (i, j) and
(i+15, j+15) — a 16 by 16 pixel block, leaving a 4-pixel gutter — filled
with a uniformly random palette colour whose channels are multiplied by
the contrast factor and truncated, with no clamping to 255. -/
theorem claim_c4_amended (w h : Nat) (colors : List RGB) (cfg : StyleConfig)
    (rng : Nat → Nat) (hc : colors ≠ []) :
    generateTexture w h colors cfg rng =
        some (specTextureOps w h colors cfg rng) ∧
      (specTextureOps w h colors cfg rng).length =
        ((w + 19) / 20) * ((h + 19) / 20) ∧
      (∀ op ∈ specTextureOps w h colors cfg rng, ∃ i j c, c ∈ colors ∧
        op = DrawOp.rect i j (i + 15) (j + 15)
          (applyContrast cfg.contrast c)) ∧
      (∀ x y : Nat, coversRect 0 0 15 15 x y = true ↔ x ≤ 15 ∧ y ≤ 15) ∧
      applyContrast ⟨12, 10⟩ ⟨255, 255, 255⟩ = ⟨306, 306, 306⟩ := by
  refine ⟨generateTexture_eq w h cfg rng hc, ?_, ?_, ?_, by decide⟩
  · have h1 : (textureCells w h).length =
        ((w + 19) / 20) * ((h + 19) / 20) := by
      refine Eq.trans (List.length_product (gridSteps w) (gridSteps h)) ?_
      simp [gridSteps]
    simp [specTextureOps, List.enum_length, h1]
  · intro op hop
    obtain ⟨ke, hke, rfl⟩ := List.mem_map.mp hop
    have hlen : 0 < colors.length := List.length_pos.mpr hc
    exact ⟨ke.2.1, ke.2.2, _,
      getD_mem (Nat.mod_lt _ hlen) _, rfl⟩
  · intro x y
    simp only [coversRect, Bool.and_eq_true, decide_eq_true_eq]
    omega

/-- Witness for claim C4 at a concrete input. -/
theorem claim_c4_witness :
    generateTexture 20 20 [⟨0, 0, 0⟩] ⟨⟨13, 10⟩, ⟨10, 10⟩⟩ (fun _ => 0) =
      some (specTextureOps 20 20 [⟨0, 0, 0⟩] ⟨⟨13, 10⟩, ⟨10, 10⟩⟩ (fun _ => 0)) :=
  (claim_c4_amended 20 20 [⟨0, 0, 0⟩] ⟨⟨13, 10⟩, ⟨10, 10⟩⟩ (fun _ => 0) (by decide)).1

set_option maxRecDepth 40000 in
/-- Claim C5, counterexample: on palette [(0,0,0), (255,255,255)] at
height 100, the bottom row (y = 99) is blended at ratio 99/100 and
truncated, giving (252, 252, 252), which differs from the second palette
colour (255, 255, 255) that the claim asserts for the bottom row. -/
theorem claim_c5_counterexample :
    (generateBackground 3 100 [⟨0, 0, 0⟩, ⟨255, 255, 255⟩]).map
        (fun ops => ops.get? 99) =
      some (some (DrawOp.line 0 99 3 99 ⟨252, 252, 252⟩)) ∧
      (⟨252, 252, 252⟩ : RGB) ≠ ⟨255, 255, 255⟩ := by
  exact ⟨by decide, by decide⟩

/-- Claim C5, amended: for every non-empty palette and positive height,
the background routine draws one full-width line per row y, coloured by
the per-channel blend of the first two palette colours (the first with
itself when only one exists) at ratio y/height, truncated to an integer;
the top row equals the first colour exactly, while the bottom row is the
blend at ratio (height-1)/height, which in general differs from the
second colour. -/
theorem claim_c5_amended (w h : Nat) (colors : List RGB) (c1 : RGB)
    (hh : 0 < h) (h1 : colors.get? 0 = some c1) :
    ∃ c2, (if colors.length > 1 then colors.get? 1 else
        colors.get? 0) = some c2 ∧
      generateBackground w h colors = some (specBackgroundOps w h c1 c2) ∧
      blendColor c1 c2 0 h = c1 := by
  obtain ⟨c2, hc2, heq⟩ := generateBackground_eq w h h1
  refine ⟨c2, hc2, heq, ?_⟩
  unfold blendColor
  rw [blendChannel_zero _ _ hh, blendChannel_zero _ _ hh,
    blendChannel_zero _ _ hh]

/-- Witness for claim C5 at a concrete input. -/
theorem claim_c5_witness :
    ∃ c2, (if ([⟨0, 0, 0⟩, ⟨255, 255, 255⟩] : List RGB).length > 1 then
        ([⟨0, 0, 0⟩, ⟨255, 255, 255⟩] : List RGB).get? 1 else
        ([⟨0, 0, 0⟩, ⟨255, 255, 255⟩] : List RGB).get? 0) = some c2 ∧
      generateBackground 3 100 [⟨0, 0, 0⟩, ⟨255, 255, 255⟩] =
        some (specBackgroundOps 3 100 ⟨0, 0, 0⟩ c2) ∧
      blendColor ⟨0, 0, 0⟩ c2 0 100 = ⟨0, 0, 0⟩ :=
  claim_c5_amended 3 100 [⟨0, 0, 0⟩, ⟨255, 255, 255⟩] ⟨0, 0, 0⟩
    (by decide) (by decide)

/-- Claim C6: for every category other than "texture", "sprite", "icon"
and "background", procedural asset creation signals no error — it draws
nothing — and the resulting canvas has alpha 0 at every pixel. -/
theorem claim_c6_blank (category prompt style : String) (w h : Nat)
    (rng : Nat → Nat) (hw : 0 < w) (hh : 0 < h)
    (h1 : category ≠ "texture") (h2 : category ≠ "sprite")
    (h3 : category ≠ "icon") (h4 : category ≠ "background") :
    createProceduralAsset prompt category style w h rng = some [] ∧
      ∀ x y : Nat, (render [] x y).a = 0 := by
  constructor
  · unfold createProceduralAsset
    rw [if_neg h1, if_neg h2, if_neg h3, if_neg h4]
  · intro x y
    rfl

/-- Witness for claim C6 at a concrete unrecognized category. -/
theorem claim_c6_witness :
    createProceduralAsset "p" "gadget" "s" 8 8 (fun _ => 0) = some [] ∧
      (render [] 0 0).a = 0 := by
  have h := claim_c6_blank "gadget" "p" "s" 8 8 (fun _ => 0)
    (by decide) (by decide) (by decide) (by decide) (by decide) (by decide)
  exact ⟨h.1, h.2 0 0⟩

/-- Claim C7, failing input: the claim says the drawing routines raise no
exception, but the sprite routine never floors the shrinking half-extent.
On the prompt "circle rectangle" (shape set ["circle", "rectangle"]) at
20 by 20, the second processed shape is drawn with half-extent -4, so the
code hands PIL the inverted bounding box [14, 14, 6, 6] with x1 < x0 —
which Pillow rejects with a ValueError — instead of a well-formed box.
This theorem evaluates the code at that input and exhibits the inverted
box reached through the full dispatch. -/
theorem claim_c7_failing_input :
    createProceduralAsset "circle rectangle" "sprite" "realistic" 20 20
        (fun _ => 0) =
      some [DrawOp.ellipse 4 4 16 16 ⟨100, 150, 200⟩ none,
        DrawOp.rect 14 14 6 6 ⟨100, 150, 200⟩] ∧
      (6 : Int) < 14 := by
  exact ⟨by decide, by decide⟩

/-- Claim C8: the colour extractor returns exactly the table colours whose
names occur (case-insensitively) as substrings of the prompt, in
table-definition order, and the fixed 3-entry default palette when none
occurs; in particular every prompt containing "red" yields a palette
containing (255, 0, 0). -/
theorem claim_c8_colors (prompt : String) :
    analyzePromptColors prompt =
        (if ((colorKeywords.filter
            (fun kv => strContains (strLower prompt) kv.1)).map
            (fun kv => kv.2)).isEmpty then defaultPalette
         else (colorKeywords.filter
            (fun kv => strContains (strLower prompt) kv.1)).map
            (fun kv => kv.2)) ∧
      (strContains (strLower prompt) "red" = true →
        (⟨255, 0, 0⟩ : RGB) ∈ analyzePromptColors prompt) := by
  constructor
  · rfl
  · intro hred
    have hmem : (⟨255, 0, 0⟩ : RGB) ∈ (colorKeywords.filter
        (fun kv => strContains (strLower prompt) kv.1)).map
        (fun kv => kv.2) := by
      apply List.mem_map.mpr
      refine ⟨("red", ⟨255, 0, 0⟩), ?_, rfl⟩
      apply List.mem_filter.mpr
      exact ⟨by decide, hred⟩
    have hne : ¬ (((colorKeywords.filter
        (fun kv => strContains (strLower prompt) kv.1)).map
        (fun kv => kv.2)).isEmpty = true) := by
      intro he
      rw [List.isEmpty_iff] at he
      rw [he] at hmem
      exact List.not_mem_nil _ hmem
    simp only [analyzePromptColors]
    rw [if_neg hne]
    exact hmem

/-- Witness for claim C8 at a concrete prompt with mixed case. -/
theorem claim_c8_witness :
    (⟨255, 0, 0⟩ : RGB) ∈ analyzePromptColors "Big RED balloon" :=
  (claim_c8_colors "Big RED balloon").2 (by decide)

/-- Claim C9: the backend router uses the explicitly requested backend
when its API key is configured, otherwise whichever credentialed backend
is available with DALL-E preferred, and the procedural synthesizer exactly
when neither key is configured. -/
theorem claim_c9_routing (pref : String) (k1 k2 : Bool) :
    (pref = "dalle" → k1 = true → routeBackend pref k1 k2 = Backend.dalle) ∧
      (pref = "stable_diffusion" → k2 = true →
        routeBackend pref k1 k2 = Backend.stableDiffusion) ∧
      (routeBackend pref k1 k2 = Backend.procedural ↔
        k1 = false ∧ k2 = false) ∧
      ((pref = "dalle" → k1 = false) →
        (pref = "stable_diffusion" → k2 = false) →
        routeBackend pref k1 k2 =
          (if k1 then Backend.dalle
           else if k2 then Backend.stableDiffusion
           else Backend.procedural)) := by
  by_cases hd : pref = "dalle" <;> by_cases hs : pref = "stable_diffusion" <;>
    cases k1 <;> cases k2 <;>
    simp_all [routeBackend]

/-- Witness for claim C9 at a concrete configuration. -/
theorem claim_c9_witness :
    routeBackend "dalle" true false = Backend.dalle :=
  (claim_c9_routing "dalle" true false).1 rfl rfl

/-- Claim C10: the icon and background routines use no randomness — two
synthesis calls with different random oracles agree on every input — while
the texture and sprite routines consult the random source, so two calls on
equal inputs can render different pixel buffers. -/
theorem claim_c10_randomness :
    (∀ (prompt style : String) (w h : Nat) (rng rng2 : Nat → Nat),
        createProceduralAsset prompt "icon" style w h rng =
          createProceduralAsset prompt "icon" style w h rng2) ∧
      (∀ (prompt style : String) (w h : Nat) (rng rng2 : Nat → Nat),
        createProceduralAsset prompt "background" style w h rng =
          createProceduralAsset prompt "background" style w h rng2) ∧
      (∃ ops1 ops2,
        createProceduralAsset "" "texture" "pixel" 20 20 (fun _ => 0) =
            some ops1 ∧
          createProceduralAsset "" "texture" "pixel" 20 20 (fun _ => 1) =
            some ops2 ∧
          render ops1 0 0 ≠ render ops2 0 0) ∧
      (∃ ops1 ops2,
        createProceduralAsset "" "sprite" "pixel" 20 20 (fun _ => 0) =
            some ops1 ∧
          createProceduralAsset "" "sprite" "pixel" 20 20 (fun _ => 1) =
            some ops2 ∧
          render ops1 10 10 ≠ render ops2 10 10) := by
  refine ⟨?_, ?_, ?_, ?_⟩
  · intro prompt style w h rng rng2
    rfl
  · intro prompt style w h rng rng2
    rfl
  · exact ⟨[DrawOp.rect 0 0 15 15 ⟨100, 150, 200⟩],
      [DrawOp.rect 0 0 15 15 ⟨200, 100, 150⟩],
      by decide, by decide, by decide⟩
  · exact ⟨[DrawOp.rect 4 4 16 16 ⟨100, 150, 200⟩],
      [DrawOp.rect 4 4 16 16 ⟨200, 100, 150⟩],
      by decide, by decide, by decide⟩

end GameDevAI
